import Mathlib

/-!
Shallow embedding of the AWS instance-collection program
(`src/main.py`, `src/modules.py`).

Python values that appear in the raw provider records are modelled by the
inductive type `Val`; Python exceptions that the embedded code can raise are
modelled by `PyErr`.  Functions that may raise return `Except PyErr _`, and
functions that log return their log as an explicit list of entries.  The
`ipaddress.ip_address` standard-library routine (an external collaborator of
the repository) is modelled by `ip_address` below, following CPython's
parsing rules for IPv4 and IPv6 address strings.
-/

/-- Model of a parsed IP address object: an IPv4 address is its 32-bit
integer value, an IPv6 address its 128-bit integer value. -/
inductive IPAddr where
  | v4 (val : Nat)
  | v6 (val : Nat)
deriving DecidableEq

/-- Model of a Python value as it occurs in the raw AWS records:
strings, dicts, lists, parsed IP-address objects (results of
`ipaddress.ip_address`), and opaque non-string objects such as the
`datetime` launch time (`obj n`, where `n` only distinguishes objects). -/
inductive Val where
  | str (s : String)
  | dict (entries : List (String × Val))
  | list (elems : List Val)
  | ip (a : IPAddr)
  | obj (n : Nat)

/-- Model of the Python exceptions the embedded code can raise.
`keyError` is a `KeyError` from a missing dict key (the spec's
`MissingFieldError`, which names the missing field), `valueError` a
`ValueError` from `ipaddress.ip_address`, `typeError` a `TypeError`,
`clientError` any exception raised by the boto3 collaborator, and
`noResponse` is a model artifact for a collaborator trace that ends
while the pagination loop still wants another page. -/
inductive PyErr where
  | keyError (key : String)
  | valueError (msg : String)
  | typeError (msg : String)
  | clientError (msg : String)
  | noResponse
deriving DecidableEq

/-- Severities used by the `logging` calls in the source. -/
inductive LogLevel where
  | info
  | debug
  | error
deriving DecidableEq

/-- One emitted log line: severity and message. -/
abbrev LogEntry := LogLevel × String

/-- First-match lookup in a Python dict, modelled as an association list. -/
def pyLookup (entries : List (String × Val)) (k : String) : Option Val :=
  match entries with
  | [] => none
  | (k1, v) :: rest => if k1 = k then some v else pyLookup rest k

/-- Python `d[k]`: `KeyError` when the key is absent, `TypeError` when the
value is not a dict.  (In the source every subscripted value is a dict.) -/
def dictGet (v : Val) (k : String) : Except PyErr Val :=
  match v with
  | .dict d =>
    match pyLookup d k with
    | some x => .ok x
    | none => .error (.keyError k)
  | _ => .error (.typeError "object is not subscriptable")

/-- Combined model of Python's `k in d` membership test followed by the
subscript `d[k]` that the source performs under it: `some v` when the key
is present (the guarded branch runs with value `v`), `none` otherwise.
The source only applies `in` to the raw instance record, which is a dict
at every reachable use; on a non-dict the guard is never taken here. -/
def optLookup (v : Val) (k : String) : Option Val :=
  match v with
  | .dict d => pyLookup d k
  | _ => none

/-- Python truthiness of a raw value: empty strings, dicts and lists are
falsy; parsed IP addresses and opaque objects are truthy. -/
def truthy (v : Val) : Bool :=
  match v with
  | .str s => !s.isEmpty
  | .dict d => !d.isEmpty
  | .list l => !l.isEmpty
  | .ip _ => true
  | .obj _ => true

/-- Python iteration over a value, as used by `for interface in raw_data
["NetworkInterfaces"]`: a list yields its elements, a string its
characters, a dict its keys; other objects are not iterable. -/
def iterVal (v : Val) : Except PyErr (List Val) :=
  match v with
  | .list l => .ok l
  | .str s => .ok (s.data.map (fun c => .str (String.singleton c)))
  | .dict d => .ok (d.map (fun e => .str e.1))
  | _ => .error (.typeError "object is not iterable")

/-! ### Model of `ipaddress.ip_address` (CPython standard library)

All parsing works structurally on `List Char` so that every theorem about
concrete addresses evaluates by `rfl` or `decide`. -/

/-- Split a character list on a separator, like Python `str.split(sep)`:
the result always has one more piece than there are separators. -/
def splitChars (sep : Char) : List Char → List (List Char)
  | [] => [[]]
  | x :: xs =>
    match splitChars sep xs with
    | [] => [[]]
    | h :: t => if x = sep then [] :: h :: t else (x :: h) :: t

/-- Hexadecimal digit test used by the IPv6 hextet rule. -/
def isHexDigitChar (c : Char) : Bool :=
  c.isDigit || (('a' ≤ c && c ≤ 'f') || ('A' ≤ c && c ≤ 'F'))

/-- Numeric value of a hexadecimal digit. -/
def hexDigitVal (c : Char) : Nat :=
  if c.isDigit then c.toNat - 48
  else if 'a' ≤ c && c ≤ 'f' then c.toNat - 87
  else c.toNat - 55

/-- Value of a decimal digit string. -/
def decValue (l : List Char) : Nat :=
  l.foldl (fun acc c => acc * 10 + (c.toNat - 48)) 0

/-- Value of a hexadecimal digit string. -/
def hexValue (l : List Char) : Nat :=
  l.foldl (fun acc c => acc * 16 + hexDigitVal c) 0

/-- CPython `IPv4Address._parse_octet`: 1 to 3 ASCII digits, no leading
zero (except `0` itself), value at most 255. -/
def parseOctet (l : List Char) : Option Nat :=
  if l.length = 0 || 3 < l.length then none
  else if !l.all Char.isDigit then none
  else if 1 < l.length && l.headD '1' = '0' then none
  else if 255 < decValue l then none
  else some (decValue l)

/-- CPython IPv4 parsing: exactly four octets separated by dots; the
result is the 32-bit integer value of the address. -/
def parseIPv4Chars (l : List Char) : Option Nat :=
  match splitChars '.' l with
  | [a, b, c, d] =>
    match parseOctet a, parseOctet b, parseOctet c, parseOctet d with
    | some x, some y, some z, some w => some (((x * 256 + y) * 256 + z) * 256 + w)
    | _, _, _, _ => none
  | _ => none

/-- One `:`-separated component of an IPv6 string.  `num` components stand
for the two hextets CPython substitutes for an embedded IPv4 suffix. -/
inductive HexTok where
  | txt (l : List Char)
  | num (v : Nat)

/-- Whether a component is the empty string (part of a `::`). -/
def HexTok.isEmptyTok : HexTok → Bool
  | .txt l => l.isEmpty
  | .num _ => false

/-- CPython `_parse_hextet`: at most 4 hex digits, at least one. -/
def parseHextet : HexTok → Option Nat
  | .num v => some v
  | .txt l =>
    if l.length = 0 || 4 < l.length then none
    else if !l.all isHexDigitChar then none
    else some (hexValue l)

/-- Fold a run of hextets into the integer they denote. -/
def foldHextets (l : List HexTok) : Option Nat :=
  l.foldl
    (fun acc t =>
      match acc, parseHextet t with
      | some a, some h => some (a * 65536 + h)
      | _, _ => none)
    (some 0)

/-- Interior positions (neither first nor last) holding an empty
component, i.e. the candidates for the single `::` gap. -/
def innerEmpties (parts : List HexTok) : List Nat :=
  (List.range parts.length).filter
    (fun i => 0 < i && i + 1 < parts.length &&
      ((parts.drop i).headD (.num 0)).isEmptyTok)

/-- CPython IPv6 parsing (`_ip_int_from_string`): split on `:`, replace a
dotted final component by the two hextets of its IPv4 value, allow one
`::` gap, and require eight hextets in total.  Zone identifiers
(`%zone`) are not modelled; no claim exercises them. -/
def parseIPv6Chars (cs : List Char) : Option Nat :=
  let parts0 := (splitChars ':' cs).map HexTok.txt
  if parts0.length < 3 then none
  else
    let partsO : Option (List HexTok) :=
      match parts0.getLast? with
      | some (.txt last) =>
        if last.contains '.' then
          match parseIPv4Chars last with
          | some v4 => some (parts0.dropLast ++ [.num (v4 / 65536), .num (v4 % 65536)])
          | none => none
        else some parts0
      | _ => some parts0
    match partsO with
    | none => none
    | some parts =>
      if 9 < parts.length then none
      else
        match innerEmpties parts with
        | [] =>
          if parts.length ≠ 8 then none
          else if (parts.headD (.num 0)).isEmptyTok then none
          else if (parts.getLastD (.num 0)).isEmptyTok then none
          else foldHextets parts
        | [i] =>
          let headEmpty := (parts.headD (.num 0)).isEmptyTok
          let lastEmpty := (parts.getLastD (.num 0)).isEmptyTok
          let partsHi0 := i
          let partsLo0 := parts.length - i - 1
          if headEmpty && partsHi0 ≠ 1 then none
          else if lastEmpty && partsLo0 ≠ 1 then none
          else
            let partsHi := if headEmpty then partsHi0 - 1 else partsHi0
            let partsLo := if lastEmpty then partsLo0 - 1 else partsLo0
            if 8 < partsHi + partsLo then none
            else if 8 - (partsHi + partsLo) < 1 then none
            else
              match foldHextets (parts.take partsHi),
                    foldHextets (parts.drop (parts.length - partsLo)) with
              | some hi, some lo =>
                some (hi * 65536 ^ (8 - partsHi) + lo)
              | _, _ => none
        | _ => none

/-- Dotted-quad rendering of a 32-bit IPv4 value (CPython `str`). -/
def renderIPv4 (n : Nat) : String :=
  toString (n / 16777216 % 256) ++ "." ++ toString (n / 65536 % 256) ++ "." ++
    toString (n / 256 % 256) ++ "." ++ toString (n % 256)

/-- Rendering of an address object for f-string interpolation.  The IPv6
rendering omits CPython's zero-compression; no theorem depends on it. -/
def renderIP : IPAddr → String
  | .v4 n => renderIPv4 n
  | .v6 n => "ipv6:" ++ toString n

/-- Python `str()` of a raw value as used inside the source's f-strings.
The source only ever interpolates the interface id, a string in every
record the provider returns; the other cases are coarse renderings. -/
def pyStr : Val → String
  | .str s => s
  | .dict _ => "<dict>"
  | .list _ => "<list>"
  | .ip a => renderIP a
  | .obj _ => "<object>"

/-- Model of `ipaddress.ip_address`.  A string is tried as IPv4 then as
IPv6; failure raises `ValueError`.  An already-parsed address object is
stringified and re-parsed by CPython, which yields an equal address, so
the model returns it unchanged.  Dicts, lists and opaque objects
stringify to text that is never a valid address, hence `ValueError`. -/
def ip_address (v : Val) : Except PyErr IPAddr :=
  match v with
  | .str s =>
    match parseIPv4Chars s.data with
    | some n => .ok (.v4 n)
    | none =>
      match parseIPv6Chars s.data with
      | some n => .ok (.v6 n)
      | none => .error (.valueError (s ++ " does not appear to be an IPv4 or IPv6 address"))
  | .ip a => .ok a
  | _ => .error (.valueError "does not appear to be an IPv4 or IPv6 address")


/-! ### `src/modules.py`: the Record Normalizer -/

/-- The `NetworkInterface` dataclass of `src/modules.py`.  The eight
required fields hold the raw values copied verbatim; the three address
fields default to `None` and are only ever assigned parsed addresses. -/
structure NetworkInterface where
  ip_owner_id : Val
  public_dns_name : Val
  mac_address : Val
  network_interface_id : Val
  owner_id : Val
  private_dns_name : Val
  subnet_id : Val
  status : Val
  public_ip_address : Option IPAddr := none
  ipv6_address : Option IPAddr := none
  private_ip_address : Option IPAddr := none

/-- Embedding of `from_raw_data_to_network_interface` (src/modules.py,
lines 83-125), in the source's evaluation order.  Successful runs return
the interface together with the log lines emitted; a raised exception is
an `error` (every `logging` call in this function happens after the last
operation that can raise, so an erroring run has emitted nothing).
Note that the lookup of `Association["PublicIp"]` and its `ip_address`
parse (source line 103) sit outside any `try`, so their exceptions
propagate; the three `try` blocks below catch only the `ValueError` of
the address parse attempted inside them. -/
def from_raw_data_to_network_interface (raw_data : Val) :
    Except PyErr (NetworkInterface × List LogEntry) := do
  let association ← dictGet raw_data "Association"
  let ip_owner_id ← dictGet association "IpOwnerId"
  let public_dns_name ← dictGet association "PublicDnsName"
  let mac_address ← dictGet raw_data "MacAddress"
  let network_interface_id ← dictGet raw_data "NetworkInterfaceId"
  let owner_id ← dictGet raw_data "OwnerId"
  let private_dns_name ← dictGet raw_data "PrivateDnsName"
  let subnet_id ← dictGet raw_data "SubnetId"
  let status ← dictGet raw_data "Status"
  let parsed0 : NetworkInterface :=
    { ip_owner_id, public_dns_name, mac_address, network_interface_id,
      owner_id, private_dns_name, subnet_id, status }
  let ipv6_address ← dictGet raw_data "Ipv6Addresses"
  let publicIpVal ← dictGet association "PublicIp"
  let public_ip ← ip_address publicIpVal
  let private_ip_address ← dictGet raw_data "PrivateIpAddress"
  let idStr := pyStr parsed0.network_interface_id
  let (parsed1, log1) :=
    if truthy ipv6_address then
      match ip_address ipv6_address with
      | .ok a => ({ parsed0 with ipv6_address := some a }, ([] : List LogEntry))
      | .error _ =>
        (parsed0, [(LogLevel.error,
          "ipv6 address is not valid in network interface with the id " ++ idStr)])
    else (parsed0, ([] : List LogEntry))
  let (parsed2, log2) :=
    if truthy (Val.ip public_ip) then
      match ip_address (Val.ip public_ip) with
      | .ok a => ({ parsed1 with public_ip_address := some a }, ([] : List LogEntry))
      | .error _ =>
        (parsed1, [(LogLevel.debug,
          "public_ip address is not valid in network interface with the id " ++ idStr)])
    else (parsed1, ([] : List LogEntry))
  let (parsed3, log3) :=
    if truthy private_ip_address then
      match ip_address private_ip_address with
      | .ok a => ({ parsed2 with private_ip_address := some a }, ([] : List LogEntry))
      | .error _ =>
        (parsed2, [(LogLevel.error,
          "private_ip_address address is not valid in network interface with the id " ++ idStr)])
    else (parsed2, ([] : List LogEntry))
  pure (parsed3, log1 ++ log2 ++ log3)

/-- The `Instance` dataclass of `src/modules.py`.  Required fields hold
the raw values verbatim; the four optional fields default to the empty
string.  The field `Host_id` keeps the source's capitalised name. -/
structure Instance where
  image_id : Val
  instance_id : Val
  network_interfaces : List NetworkInterface
  state : Val
  launch_time : Val
  tags : Val
  cpu_details : Val
  instance_type : Val
  security_groups : Val
  client_token : Val
  state_transition_reason : Val
  root_device_name : Val
  ram_disk_id : Val := .str ""
  platform : Val := .str ""
  kernel_id : Val := .str ""
  Host_id : Val := .str ""

/-- The optional-field section of `from_raw_data_to_instance`
(src/modules.py, lines 56-63): each of the four keys overwrites its
target field only when present in the raw record. -/
def applyOptionals (parsed_instance : Instance) (raw_data : Val) : Instance :=
  let i1 := match optLookup raw_data "RamdiskId" with
    | some v => { parsed_instance with ram_disk_id := v }
    | none => parsed_instance
  let i2 := match optLookup raw_data "PlatformDetails" with
    | some v => { i1 with platform := v }
    | none => i1
  let i3 := match optLookup raw_data "KernelId" with
    | some v => { i2 with kernel_id := v }
    | none => i2
  match optLookup raw_data "HostId" with
  | some v => { i3 with Host_id := v }
  | none => i3

/-- The `for interface in raw_data["NetworkInterfaces"]` loop of
`from_raw_data_to_instance` (src/modules.py, lines 40-44): each raw
interface record is normalized in order; logs accumulate across
interfaces, and a raised exception aborts the loop while keeping the
log lines already emitted by the earlier interfaces. -/
def niLoop : List Val → Except PyErr (List NetworkInterface) × List LogEntry
  | [] => (.ok [], [])
  | v :: rest =>
    match from_raw_data_to_network_interface v with
    | .error e => (.error e, [])
    | .ok (ni, log) =>
      match niLoop rest with
      | (.error e, logs) => (.error e, log ++ logs)
      | (.ok nis, logs) => (.ok (ni :: nis), log ++ logs)

/-- Embedding of `from_raw_data_to_instance` (src/modules.py, lines
30-65).  The interface list is looked up and normalized first, then the
required fields are read in the source's keyword-argument order, then
the optional fields are applied.  The log of the emitted diagnostics is
returned alongside, also when an exception escapes. -/
def from_raw_data_to_instance (raw_data : Val) :
    Except PyErr Instance × List LogEntry :=
  match dictGet raw_data "NetworkInterfaces" with
  | .error e => (.error e, [])
  | .ok nisVal =>
    match iterVal nisVal with
    | .error e => (.error e, [])
    | .ok ifaceVals =>
      match niLoop ifaceVals with
      | (.error e, log) => (.error e, log)
      | (.ok parsed_interfaces, log) =>
        let req : Except PyErr Instance := do
          let image_id ← dictGet raw_data "ImageId"
          let instance_id ← dictGet raw_data "InstanceId"
          let state ← dictGet raw_data "State"
          let launch_time ← dictGet raw_data "LaunchTime"
          let tags ← dictGet raw_data "Tags"
          let cpu_details ← dictGet raw_data "CpuOptions"
          let instance_type ← dictGet raw_data "InstanceType"
          let security_groups ← dictGet raw_data "SecurityGroups"
          let client_token ← dictGet raw_data "ClientToken"
          let state_transition_reason ← dictGet raw_data "StateTransitionReason"
          let root_device_name ← dictGet raw_data "RootDeviceName"
          pure { image_id, instance_id, network_interfaces := parsed_interfaces,
                 state, launch_time, tags, cpu_details, instance_type,
                 security_groups, client_token, state_transition_reason,
                 root_device_name }
        match req with
        | .error e => (.error e, log)
        | .ok parsed_instance => (.ok (applyOptionals parsed_instance raw_data), log)

/-! ### `src/main.py`: the Region Collector

The boto3 EC2 client is an external collaborator.  A client is modelled
by the trace of responses its successive `describe_instances` calls
return: the i-th call (whatever its arguments) yields the i-th entry of
the trace, which is either a response page or a raised exception. -/

/-- One reservation grouping inside a listing response: the collector
reads its `Instances` list. -/
structure Reservation where
  instances : List Val

/-- One response page of `describe_instances`: its `Reservations` list
and its optional `NextToken` continuation cursor (the `NextToken` key is
absent exactly when the token is `none`). -/
structure Page where
  reservations : List Reservation
  nextToken : Option String

/-- A client: the trace of outcomes of its successive calls. -/
abbrev Client := List (Except PyErr Page)

/-- The record-extraction loop body of `describe_instances_paginated`
(src/main.py, lines 18-20 and 25-26): flatten the `Instances` of every
reservation of a page, in order. -/
def pageRecords (p : Page) : List Val :=
  p.reservations.foldl (fun acc r => acc ++ r.instances) []

/-- The `while "NextToken" in response` loop of
`describe_instances_paginated` (src/main.py, lines 22-26), instrumented
with the list of `NextToken` arguments passed to the calls it issues
(one list entry per call).  `prev` is the response of the previous call;
an exhausted trace while a token is still pending is the model artifact
`noResponse`. -/
def describeWhile : Client → Page → Except PyErr (List Val × List (Option String))
  | responses, prev =>
    match prev.nextToken with
    | none => .ok ([], [])
    | some tok =>
      match responses with
      | [] => .error .noResponse
      | r :: rest => do
        let p ← r
        let (recs, args) ← describeWhile rest p
        .ok (pageRecords p ++ recs, some tok :: args)

/-- Embedding of `describe_instances_paginated` (src/main.py, lines
8-27), instrumented with the list of cursor arguments of the calls it
issued: the first call passes no `NextToken` (`none`), and each
following call passes the token of the previous response.  The length
of that list is the number of calls. -/
def describe_instances_paginated (client : Client) :
    Except PyErr (List Val × List (Option String)) :=
  match client with
  | [] => .error .noResponse
  | r :: rest => do
    let p ← r
    let (recs, args) ← describeWhile rest p
    .ok (pageRecords p ++ recs, none :: args)

/-- The collaborator environment of `get_all_aws_instances`: acquiring a
client for a region (`boto3.client`, src/main.py line 49) either returns
a client trace or raises. -/
structure Env where
  acquire : String → Except PyErr Client

/-- The hard-coded region list of `get_all_aws_instances` (src/main.py,
lines 37-40). -/
def all_aws_regions : List String :=
  ["us-east-2", "us-east-1", "us-west-1", "us-west-2", "af-south-1", "ap-east-1",
   "ap-south-1", "ap-northeast-3", "ap-northeast-2", "ap-southeast-1",
   "ap-southeast-2", "ap-northeast-1", "ca-central-1", "eu-central-1",
   "eu-west-1", "eu-west-2", "eu-south-1", "eu-west-3", "eu-north-1",
   "me-south-1", "sa-east-1"]

/-- The `if specific_regions:` default (src/main.py, lines 42-45):
Python truthiness makes both `None` and an empty list fall back to the
hard-coded region list. -/
def regionsToUse (specific_regions : Option (List String)) : List String :=
  match specific_regions with
  | some rs => if rs.isEmpty then all_aws_regions else rs
  | none => all_aws_regions

/-- The per-region loop of `get_all_aws_instances` (src/main.py, lines
47-57).  Client acquisition happens before the `try` block, so its
exception propagates and ends the loop; an exception from the paginated
listing is caught, logged and skipped. -/
def regionLoop (env : Env) :
    List String → List Val → List LogEntry → Except PyErr (List Val) × List LogEntry
  | [], acc, log => (.ok acc, log)
  | region :: rest, acc, log =>
    match env.acquire region with
    | .error e => (.error e, log)
    | .ok ec2 =>
      match describe_instances_paginated ec2 with
      | .ok (regions_instances, _) =>
        regionLoop env rest (acc ++ regions_instances)
          (log ++ [(LogLevel.debug, "pulled instances from region " ++ region)])
      | .error _ =>
        regionLoop env rest acc
          (log ++ [(LogLevel.error, "Could not pull instances from region " ++ region)])

/-- The normalization loop of `get_all_aws_instances` (src/main.py,
lines 61-65): every accumulated raw record through
`from_raw_data_to_instance`, in order; an exception propagates, keeping
the log lines already emitted. -/
def parseLoop : List Val → Except PyErr (List Instance) × List LogEntry
  | [] => (.ok [], [])
  | d :: ds =>
    match from_raw_data_to_instance d with
    | (.error e, log) => (.error e, log)
    | (.ok inst, log) =>
      match parseLoop ds with
      | (.error e, logs) => (.error e, log ++ logs)
      | (.ok insts, logs) => (.ok (inst :: insts), log ++ logs)

/-- Embedding of `get_all_aws_instances` (src/main.py, lines 30-67):
resolve the region list, pull every region's raw records (skipping
regions whose listing raises), then normalize all records.  The second
component is the full log; the first is the returned instance list or
the exception that escaped. -/
def get_all_aws_instances (env : Env) (specific_regions : Option (List String)) :
    Except PyErr (List Instance) × List LogEntry :=
  let regions := regionsToUse specific_regions
  match regionLoop env regions [] [(LogLevel.info, "started pulling instances")] with
  | (.error e, log) => (.error e, log)
  | (.ok all_raw, log) =>
    let log := log ++ [(LogLevel.info, "finished successfully pulling instances"),
                       (LogLevel.info, "processing raw data into objects")]
    match parseLoop all_raw with
    | (.error e, plog) => (.error e, log ++ plog)
    | (.ok parsed_instances, plog) =>
      (.ok parsed_instances,
       log ++ plog ++ [(LogLevel.info, "finished processing the raw data")])

/-! ### Specification-side summaries of the region loop

These definitions restate what one region contributes, and are compared
with `regionLoop` by induction. -/

/-- Outcome of fetching one region: acquire the client, then run the
paginated listing. -/
def regionFetch (env : Env) (region : String) : Except PyErr (List Val) :=
  match env.acquire region with
  | .error e => .error e
  | .ok ec2 =>
    match describe_instances_paginated ec2 with
    | .ok (recs, _) => .ok recs
    | .error e => .error e

/-- The raw records of the regions whose fetch succeeds, in input-region
order. -/
def goodRaws (env : Env) (regions : List String) : List Val :=
  regions.flatMap (fun r =>
    match regionFetch env r with
    | .ok recs => recs
    | .error _ => [])

/-- The per-region log lines: one debug line per fetched region, one
error line naming each region whose listing failed. -/
def regionDiags (env : Env) (regions : List String) : List LogEntry :=
  regions.flatMap (fun r =>
    match regionFetch env r with
    | .ok _ => [(LogLevel.debug, "pulled instances from region " ++ r)]
    | .error _ => [(LogLevel.error, "Could not pull instances from region " ++ r)])

/-! ### Heap-level embedding for the frame property

Python dicts and lists are mutable, so "the normalizer does not modify
its raw input" is a statement about a heap.  Here the two normalization
functions are re-embedded against an explicit heap: raw records are
heap-allocated dict/list objects referenced by address, and the
dataclass instances the normalizer creates are allocated and then
mutated by the attribute assignments of the source (the only writes the
source performs).  Addresses are list indices; allocation appends.
Diagnostic logging is not a heap effect and is omitted here (the pure
embedding above carries the logs). -/

/-- A heap-level Python value: a string, `None`, a reference to a heap
object, a parsed address object, or an opaque immutable object. -/
inductive HVal where
  | hstr (s : String)
  | hnone
  | href (a : Nat)
  | hip (a : IPAddr)
  | hobj (n : Nat)

/-- A heap object: a dict, a list, or one of the two dataclass objects,
whose attributes are modelled as a field list. -/
inductive HObj where
  | hdict (entries : List (String × HVal))
  | hlist (elems : List HVal)
  | hni (fields : List (String × HVal))
  | hinst (fields : List (String × HVal))

/-- The heap: object at address `a` is the `a`-th entry. -/
abbrev Heap := List HObj

/-- Allocate an object at a fresh address (the current heap length). -/
def halloc (h : Heap) (o : HObj) : Heap × Nat :=
  (h ++ [o], h.length)

/-- First-match lookup in a field or entry list. -/
def hvLookup (entries : List (String × HVal)) (k : String) : Option HVal :=
  match entries with
  | [] => none
  | (k1, v) :: rest => if k1 = k then some v else hvLookup rest k

/-- Overwrite a field in a field list (append when absent). -/
def setEntry : List (String × HVal) → String → HVal → List (String × HVal)
  | [], f, v => [(f, v)]
  | (k, w) :: rest, f, v =>
    if k = f then (f, v) :: rest else (k, w) :: setEntry rest f v

/-- Attribute assignment `obj.f = v` on the dataclass object at `a`. -/
def hsetField (h : Heap) (a : Nat) (f : String) (v : HVal) : Heap :=
  match h.get? a with
  | some (.hni fs) => h.set a (.hni (setEntry fs f v))
  | some (.hinst fs) => h.set a (.hinst (setEntry fs f v))
  | _ => h

/-- Heap-level `d[k]`: dereference a dict object and look the key up. -/
def hdictGet (h : Heap) (v : HVal) (k : String) : Except PyErr HVal :=
  match v with
  | .href a =>
    match h.get? a with
    | some (.hdict d) =>
      match hvLookup d k with
      | some x => .ok x
      | none => .error (.keyError k)
    | _ => .error (.typeError "object is not subscriptable")
  | _ => .error (.typeError "object is not subscriptable")

/-- Heap-level optional lookup, the `k in d` test plus subscript. -/
def hoptLookup (h : Heap) (v : HVal) (k : String) : Option HVal :=
  match v with
  | .href a =>
    match h.get? a with
    | some (.hdict d) => hvLookup d k
    | _ => none
  | _ => none

/-- Heap-level Python truthiness: `None` and empty strings, dicts and
lists are falsy. -/
def htruthy (h : Heap) (v : HVal) : Bool :=
  match v with
  | .hstr s => !s.data.isEmpty
  | .hnone => false
  | .hip _ => true
  | .hobj _ => true
  | .href a =>
    match h.get? a with
    | some (.hdict d) => !d.isEmpty
    | some (.hlist l) => !l.isEmpty
    | _ => true

/-- Heap-level `ipaddress.ip_address`, same rules as `ip_address`:
references stringify to dict/list text, which never parses, so the heap
itself is not consulted. -/
def hip_address (_h : Heap) (v : HVal) : Except PyErr IPAddr :=
  match v with
  | .hstr s =>
    match parseIPv4Chars s.data with
    | some n => .ok (.v4 n)
    | none =>
      match parseIPv6Chars s.data with
      | some n => .ok (.v6 n)
      | none => .error (.valueError (s ++ " does not appear to be an IPv4 or IPv6 address"))
  | .hip a => .ok a
  | _ => .error (.valueError "does not appear to be an IPv4 or IPv6 address")

/-- Heap-level iteration (the `for interface in ...` loop source). -/
def hiter (h : Heap) (v : HVal) : Except PyErr (List HVal) :=
  match v with
  | .href a =>
    match h.get? a with
    | some (.hlist l) => .ok l
    | some (.hdict d) => .ok (d.map (fun e => .hstr e.1))
    | _ => .error (.typeError "object is not iterable")
  | .hstr s => .ok (s.data.map (fun c => .hstr (String.singleton c)))
  | _ => .error (.typeError "object is not iterable")

/-- One guarded address-assignment block of the source (lines 105-125):
`if value:` then `try: obj.field = ip_address(value) except ValueError:
log`.  Only the successful parse writes. -/
def hsetIfValid (h : Heap) (addr : Nat) (f : String) (v : HVal) : Heap :=
  if htruthy h v then
    match hip_address h v with
    | .ok a => hsetField h addr f (.hip a)
    | .error _ => h
  else h

/-- One optional-field block of the source (lines 56-63): write the raw
value to the instance attribute when the key is present. -/
def hsetOpt (h : Heap) (addr : Nat) (raw : HVal) (k : String) (f : String) : Heap :=
  match hoptLookup h raw k with
  | some v => hsetField h addr f v
  | none => h

/-- Heap-level `from_raw_data_to_network_interface`: reads mirror the
pure embedding; the dataclass construction allocates, and the guarded
address blocks mutate the fresh object.  The returned heap reflects the
state when the function returns or when its exception escapes. -/
def hfromRawNI (h : Heap) (raw_data : HVal) : Except PyErr Nat × Heap :=
  match hdictGet h raw_data "Association" with
  | .error e => (.error e, h)
  | .ok association =>
  match hdictGet h association "IpOwnerId" with
  | .error e => (.error e, h)
  | .ok ip_owner_id =>
  match hdictGet h association "PublicDnsName" with
  | .error e => (.error e, h)
  | .ok public_dns_name =>
  match hdictGet h raw_data "MacAddress" with
  | .error e => (.error e, h)
  | .ok mac_address =>
  match hdictGet h raw_data "NetworkInterfaceId" with
  | .error e => (.error e, h)
  | .ok network_interface_id =>
  match hdictGet h raw_data "OwnerId" with
  | .error e => (.error e, h)
  | .ok owner_id =>
  match hdictGet h raw_data "PrivateDnsName" with
  | .error e => (.error e, h)
  | .ok private_dns_name =>
  match hdictGet h raw_data "SubnetId" with
  | .error e => (.error e, h)
  | .ok subnet_id =>
  match hdictGet h raw_data "Status" with
  | .error e => (.error e, h)
  | .ok status =>
  match halloc h (.hni
    [("ip_owner_id", ip_owner_id), ("public_dns_name", public_dns_name),
     ("mac_address", mac_address), ("network_interface_id", network_interface_id),
     ("owner_id", owner_id), ("private_dns_name", private_dns_name),
     ("subnet_id", subnet_id), ("status", status),
     ("public_ip_address", .hnone), ("ipv6_address", .hnone),
     ("private_ip_address", .hnone)]) with
  | (h1, addr) =>
  match hdictGet h1 raw_data "Ipv6Addresses" with
  | .error e => (.error e, h1)
  | .ok ipv6_address =>
  match hdictGet h1 association "PublicIp" with
  | .error e => (.error e, h1)
  | .ok publicIpVal =>
  match hip_address h1 publicIpVal with
  | .error e => (.error e, h1)
  | .ok public_ip =>
  match hdictGet h1 raw_data "PrivateIpAddress" with
  | .error e => (.error e, h1)
  | .ok private_ip_address =>
  let h2 := hsetIfValid h1 addr "ipv6_address" ipv6_address
  let h3 := hsetIfValid h2 addr "public_ip_address" (.hip public_ip)
  let h4 := hsetIfValid h3 addr "private_ip_address" private_ip_address
  (.ok addr, h4)

/-- Heap-level interface loop of `from_raw_data_to_instance`. -/
def hniLoop : Heap → List HVal → Except PyErr (List Nat) × Heap
  | h, [] => (.ok [], h)
  | h, v :: rest =>
    match hfromRawNI h v with
    | (.error e, h1) => (.error e, h1)
    | (.ok addr, h1) =>
      match hniLoop h1 rest with
      | (.error e, h2) => (.error e, h2)
      | (.ok addrs, h2) => (.ok (addr :: addrs), h2)

/-- Heap-level `from_raw_data_to_instance`.  The `parsed_interfaces`
list object and the `Instance` object are allocated fresh, and the four
optional-field blocks mutate the fresh instance object. -/
def hfromRawInstance (h : Heap) (raw_data : HVal) : Except PyErr Nat × Heap :=
  match hdictGet h raw_data "NetworkInterfaces" with
  | .error e => (.error e, h)
  | .ok nisVal =>
  match hiter h nisVal with
  | .error e => (.error e, h)
  | .ok ifaceVals =>
  match hniLoop h ifaceVals with
  | (.error e, h1) => (.error e, h1)
  | (.ok addrs, h1) =>
  match halloc h1 (.hlist (addrs.map HVal.href)) with
  | (h2, listAddr) =>
  match hdictGet h2 raw_data "ImageId" with
  | .error e => (.error e, h2)
  | .ok image_id =>
  match hdictGet h2 raw_data "InstanceId" with
  | .error e => (.error e, h2)
  | .ok instance_id =>
  match hdictGet h2 raw_data "State" with
  | .error e => (.error e, h2)
  | .ok state =>
  match hdictGet h2 raw_data "LaunchTime" with
  | .error e => (.error e, h2)
  | .ok launch_time =>
  match hdictGet h2 raw_data "Tags" with
  | .error e => (.error e, h2)
  | .ok tags =>
  match hdictGet h2 raw_data "CpuOptions" with
  | .error e => (.error e, h2)
  | .ok cpu_details =>
  match hdictGet h2 raw_data "InstanceType" with
  | .error e => (.error e, h2)
  | .ok instance_type =>
  match hdictGet h2 raw_data "SecurityGroups" with
  | .error e => (.error e, h2)
  | .ok security_groups =>
  match hdictGet h2 raw_data "ClientToken" with
  | .error e => (.error e, h2)
  | .ok client_token =>
  match hdictGet h2 raw_data "StateTransitionReason" with
  | .error e => (.error e, h2)
  | .ok state_transition_reason =>
  match hdictGet h2 raw_data "RootDeviceName" with
  | .error e => (.error e, h2)
  | .ok root_device_name =>
  match halloc h2 (.hinst
    [("image_id", image_id), ("instance_id", instance_id),
     ("network_interfaces", .href listAddr), ("state", state),
     ("launch_time", launch_time), ("tags", tags),
     ("cpu_details", cpu_details), ("instance_type", instance_type),
     ("security_groups", security_groups), ("client_token", client_token),
     ("state_transition_reason", state_transition_reason),
     ("root_device_name", root_device_name), ("ram_disk_id", .hstr ""),
     ("platform", .hstr ""), ("kernel_id", .hstr ""), ("Host_id", .hstr "")]) with
  | (h3, instAddr) =>
  let h4 := hsetOpt h3 instAddr raw_data "RamdiskId" "ram_disk_id"
  let h5 := hsetOpt h4 instAddr raw_data "PlatformDetails" "platform"
  let h6 := hsetOpt h5 instAddr raw_data "KernelId" "kernel_id"
  let h7 := hsetOpt h6 instAddr raw_data "HostId" "Host_id"
  (.ok instAddr, h7)

/-- Heap `h1` preserves every object of heap `h0`: it is at least as
long and agrees on every address allocated in `h0`. -/
def HeapPres (h0 h1 : Heap) : Prop :=
  h0.length ≤ h1.length ∧ ∀ a, a < h0.length → h1.get? a = h0.get? a

/-! ### Concrete records and environments used by the theorems -/

/-- The network-interface record of the spec's end-to-end example. -/
def exampleNIRaw : Val :=
  .dict [("Association", .dict [("IpOwnerId", .str "o"), ("PublicDnsName", .str ""),
                                ("PublicIp", .str "198.51.100.5")]),
         ("MacAddress", .str "00:00"), ("NetworkInterfaceId", .str "eni-1"),
         ("OwnerId", .str "o"), ("PrivateDnsName", .str ""), ("SubnetId", .str "s-1"),
         ("Status", .str "in-use"), ("Ipv6Addresses", .str ""),
         ("PrivateIpAddress", .str "10.0.0.5")]

/-- The spec's end-to-end example instance record. -/
def exampleRaw : Val :=
  .dict [("ImageId", .str "ami-1"), ("InstanceId", .str "i-1"),
         ("NetworkInterfaces", .list [exampleNIRaw]),
         ("State", .dict [("Name", .str "running")]), ("LaunchTime", .obj 0),
         ("Tags", .list []),
         ("CpuOptions", .dict [("CoreCount", .obj 1), ("ThreadsPerCore", .obj 2)]),
         ("InstanceType", .str "t2.micro"), ("SecurityGroups", .list []),
         ("ClientToken", .str ""), ("StateTransitionReason", .str ""),
         ("RootDeviceName", .str "/dev/sda1")]

/-- The normalized interface the example record yields. -/
def exampleNI : NetworkInterface :=
  { ip_owner_id := .str "o", public_dns_name := .str "", mac_address := .str "00:00",
    network_interface_id := .str "eni-1", owner_id := .str "o",
    private_dns_name := .str "", subnet_id := .str "s-1", status := .str "in-use",
    public_ip_address := some (.v4 3325256709), ipv6_address := none,
    private_ip_address := some (.v4 167772165) }

/-- The normalized instance the example record yields. -/
def exampleInstance : Instance :=
  { image_id := .str "ami-1", instance_id := .str "i-1",
    network_interfaces := [exampleNI], state := .dict [("Name", .str "running")],
    launch_time := .obj 0, tags := .list [],
    cpu_details := .dict [("CoreCount", .obj 1), ("ThreadsPerCore", .obj 2)],
    instance_type := .str "t2.micro", security_groups := .list [],
    client_token := .str "", state_transition_reason := .str "",
    root_device_name := .str "/dev/sda1" }

/-- The example interface record with an empty `PublicIp` string: the
spec requires the field to be left absent, the code hits the unguarded
parse on source line 103. -/
def niPublicEmptyRaw : Val :=
  .dict [("Association", .dict [("IpOwnerId", .str "o"), ("PublicDnsName", .str ""),
                                ("PublicIp", .str "")]),
         ("MacAddress", .str "00:00"), ("NetworkInterfaceId", .str "eni-1"),
         ("OwnerId", .str "o"), ("PrivateDnsName", .str ""), ("SubnetId", .str "s-1"),
         ("Status", .str "in-use"), ("Ipv6Addresses", .str ""),
         ("PrivateIpAddress", .str "10.0.0.5")]

/-- The example interface record with a present but invalid `PublicIp`. -/
def niPublicBadRaw : Val :=
  .dict [("Association", .dict [("IpOwnerId", .str "o"), ("PublicDnsName", .str ""),
                                ("PublicIp", .str "not-an-ip")]),
         ("MacAddress", .str "00:00"), ("NetworkInterfaceId", .str "eni-1"),
         ("OwnerId", .str "o"), ("PrivateDnsName", .str ""), ("SubnetId", .str "s-1"),
         ("Status", .str "in-use"), ("Ipv6Addresses", .str ""),
         ("PrivateIpAddress", .str "10.0.0.5")]

/-- The example instance record whose single interface has an empty
`PublicIp`: every required key of the instance and of the interface is
present. -/
def instBadPublicRaw : Val :=
  .dict [("ImageId", .str "ami-1"), ("InstanceId", .str "i-1"),
         ("NetworkInterfaces", .list [niPublicEmptyRaw]),
         ("State", .dict [("Name", .str "running")]), ("LaunchTime", .obj 0),
         ("Tags", .list []),
         ("CpuOptions", .dict [("CoreCount", .obj 1), ("ThreadsPerCore", .obj 2)]),
         ("InstanceType", .str "t2.micro"), ("SecurityGroups", .list []),
         ("ClientToken", .str ""), ("StateTransitionReason", .str ""),
         ("RootDeviceName", .str "/dev/sda1")]

/-- The example record extended with the four optional instance keys. -/
def exampleRawOpt : Val :=
  .dict [("ImageId", .str "ami-1"), ("InstanceId", .str "i-1"),
         ("NetworkInterfaces", .list []),
         ("State", .dict [("Name", .str "running")]), ("LaunchTime", .obj 0),
         ("Tags", .list []),
         ("CpuOptions", .dict [("CoreCount", .obj 1), ("ThreadsPerCore", .obj 2)]),
         ("InstanceType", .str "t2.micro"), ("SecurityGroups", .list []),
         ("ClientToken", .str ""), ("StateTransitionReason", .str ""),
         ("RootDeviceName", .str "/dev/sda1"), ("RamdiskId", .str "ari-1"),
         ("PlatformDetails", .str "Linux/UNIX"), ("KernelId", .str "aki-1"),
         ("HostId", .str "h-1")]

/-- A single-page response holding the example record. -/
def pageA : Page := { reservations := [{ instances := [exampleRaw] }], nextToken := none }

/-- Environment in which region `A` succeeds and region `B` fails while
acquiring the client (`boto3.client` raises). -/
def envAcquireFails : Env :=
  { acquire := fun r =>
      if r = "A" then .ok [.ok pageA] else .error (.clientError "could not create client") }

/-- Environment in which both clients are acquired but region `B`'s
listing call raises (access denied). -/
def envListingFails : Env :=
  { acquire := fun r =>
      if r = "A" then .ok [.ok pageA] else .ok [.error (.clientError "AccessDenied")] }

/-- An instance record missing the required `ImageId` key. -/
def rawMissingImageId : Val :=
  .dict [("InstanceId", .str "i-1"), ("NetworkInterfaces", .list []),
         ("State", .dict [("Name", .str "running")]), ("LaunchTime", .obj 0),
         ("Tags", .list []),
         ("CpuOptions", .dict [("CoreCount", .obj 1), ("ThreadsPerCore", .obj 2)]),
         ("InstanceType", .str "t2.micro"), ("SecurityGroups", .list []),
         ("ClientToken", .str ""), ("StateTransitionReason", .str ""),
         ("RootDeviceName", .str "/dev/sda1")]

/-- Environment in which the only region returns a record that lacks a
required key, so normalization raises after collection succeeded. -/
def envMalformedRecord : Env :=
  { acquire := fun _ =>
      .ok [.ok { reservations := [{ instances := [rawMissingImageId] }], nextToken := none }] }

/-- Whether fetching a region fails in a given environment. -/
def fetchFails (env : Env) (region : String) : Bool :=
  match regionFetch env region with
  | .ok _ => false
  | .error _ => true

/-- Whether a log entry was emitted at error severity. -/
def isErrorEntry (e : LogEntry) : Bool :=
  match e.1 with
  | .error => true
  | _ => false

/-- A two-object heap holding the example interface record: address 0
is its `Association` dict, address 1 the interface dict itself. -/
def hExample : Heap :=
  [.hdict [("IpOwnerId", .hstr "o"), ("PublicDnsName", .hstr ""),
           ("PublicIp", .hstr "198.51.100.5")],
   .hdict [("Association", .href 0), ("MacAddress", .hstr "00:00"),
           ("NetworkInterfaceId", .hstr "eni-1"), ("OwnerId", .hstr "o"),
           ("PrivateDnsName", .hstr ""), ("SubnetId", .hstr "s-1"),
           ("Status", .hstr "in-use"), ("Ipv6Addresses", .hstr ""),
           ("PrivateIpAddress", .hstr "10.0.0.5")]]

/-! ### Theorems -/

/-- Characterization of the optional-field pass: each of the four
optional fields takes the raw value when its key is present and keeps
the field's prior value otherwise; no other field changes. -/
theorem applyOptionals_eq (i : Instance) (raw : Val) :
    applyOptionals i raw =
      { i with ram_disk_id := (optLookup raw "RamdiskId").getD i.ram_disk_id,
               platform := (optLookup raw "PlatformDetails").getD i.platform,
               kernel_id := (optLookup raw "KernelId").getD i.kernel_id,
               Host_id := (optLookup raw "HostId").getD i.Host_id } := by
  unfold applyOptionals
  cases optLookup raw "RamdiskId" <;> cases optLookup raw "PlatformDetails" <;>
    cases optLookup raw "KernelId" <;> cases optLookup raw "HostId" <;> rfl

/-- C1: the claim's treatment of the three address fields fails on the
code for the `PublicIp` field.  `ip_address(association["PublicIp"])`
(src/modules.py line 103) runs outside every `try` block, so an empty
`PublicIp` string — which the claim requires to yield an absent field —
and an invalid one — which the claim requires to yield an absent field
plus one diagnostic — both raise `ValueError` and abort normalization
of the interface with no diagnostic emitted. -/
theorem publicIp_parse_aborts_normalization :
    from_raw_data_to_network_interface niPublicEmptyRaw =
      .error (.valueError " does not appear to be an IPv4 or IPv6 address")
    ∧ from_raw_data_to_network_interface niPublicBadRaw =
      .error (.valueError "not-an-ip does not appear to be an IPv4 or IPv6 address") :=
  ⟨rfl, rfl⟩

/-- C3: the claim fails on the code: `instBadPublicRaw` has every
required key of the instance and of its single interface present, yet
`from_raw_data_to_instance` does not produce an `Instance` — the
unguarded `PublicIp` parse raises `ValueError` out of the interface
loop. -/
theorem instance_normalization_aborts_on_bad_publicIp :
    from_raw_data_to_instance instBadPublicRaw =
      (.error (.valueError " does not appear to be an IPv4 or IPv6 address"), []) :=
  rfl

/-- C8: the spec's end-to-end example: normalization succeeds, the
public IP is the parsed `198.51.100.5` (and re-parsing the parsed value
leaves it unchanged), the private IP is the parsed `10.0.0.5`, the IPv6
address is absent, and `ram_disk_id` defaults to the empty string. -/
theorem end_to_end_example :
    from_raw_data_to_instance exampleRaw = (.ok exampleInstance, [])
    ∧ exampleInstance.network_interfaces.map NetworkInterface.public_ip_address
        = [some (.v4 3325256709)]
    ∧ ip_address (.str "198.51.100.5") = .ok (.v4 3325256709)
    ∧ ip_address (.ip (.v4 3325256709)) = .ok (.v4 3325256709)
    ∧ exampleInstance.network_interfaces.map NetworkInterface.private_ip_address
        = [some (.v4 167772165)]
    ∧ ip_address (.str "10.0.0.5") = .ok (.v4 167772165)
    ∧ exampleInstance.network_interfaces.map NetworkInterface.ipv6_address = [none]
    ∧ exampleInstance.ram_disk_id = .str "" :=
  ⟨rfl, rfl, rfl, rfl, rfl, rfl, rfl, rfl⟩

/-- C9: with no region argument (`None`) or an empty list, the
hard-coded 21-region list is used, in its fixed order from `us-east-2`
to `sa-east-1`; a non-empty argument replaces it entirely. -/
theorem default_regions :
    regionsToUse none = all_aws_regions
    ∧ regionsToUse (some []) = all_aws_regions
    ∧ (∀ rs : List String, rs ≠ [] → regionsToUse (some rs) = rs)
    ∧ all_aws_regions.length = 21
    ∧ all_aws_regions.head? = some "us-east-2"
    ∧ all_aws_regions.getLast? = some "sa-east-1" := by
  refine ⟨rfl, rfl, ?_, rfl, rfl, rfl⟩
  intro rs h
  cases rs with
  | nil => exact absurd rfl h
  | cons a l => rfl

/-- Witness for C9's hypothesis: a concrete non-empty region list is
used as given. -/
theorem default_regions_witness :
    regionsToUse (some ["us-east-2", "us-west-2"]) = ["us-east-2", "us-west-2"] :=
  default_regions.2.2.1 ["us-east-2", "us-west-2"] (by decide)

/-- C4: for every required key of the instance record and of the
interface record (including the nested `Association` block and the
three unconditionally-read address keys), removing just that key from
an otherwise complete record makes normalization fail with a `KeyError`
naming exactly that key — the spec's `MissingFieldError`.  Each
conjunct is universal in the values of the remaining fields; the
instance-level conjuncts fix `NetworkInterfaces` to an empty list so
that the interface loop succeeds, and the `PrivateIpAddress` conjunct
assumes the `PublicIp` value parses, since source line 103 parses it
before line 104 reads `PrivateIpAddress`. -/
theorem missing_required_key_raises :
    (∀ (ipo pdn pip mac nid own pvn sub st ip6 : Val) (a : IPAddr),
      ip_address pip = .ok a →
      from_raw_data_to_network_interface
        (.dict [("Association", .dict [("IpOwnerId", ipo), ("PublicDnsName", pdn), ("PublicIp", pip)]),
                ("MacAddress", mac),
                ("NetworkInterfaceId", nid),
                ("OwnerId", own),
                ("PrivateDnsName", pvn),
                ("SubnetId", sub),
                ("Status", st),
                ("Ipv6Addresses", ip6)])
        = .error (.keyError "PrivateIpAddress"))
  ∧ (∀ (mac nid own pvn sub st ip6 pvip : Val),
      from_raw_data_to_network_interface
        (.dict [("MacAddress", mac),
                ("NetworkInterfaceId", nid),
                ("OwnerId", own),
                ("PrivateDnsName", pvn),
                ("SubnetId", sub),
                ("Status", st),
                ("Ipv6Addresses", ip6),
                ("PrivateIpAddress", pvip)])
        = .error (.keyError "Association"))
  ∧ (∀ (pdn pip mac nid own pvn sub st ip6 pvip : Val),
      from_raw_data_to_network_interface
        (.dict [("Association", .dict [("PublicDnsName", pdn), ("PublicIp", pip)]),
                ("MacAddress", mac),
                ("NetworkInterfaceId", nid),
                ("OwnerId", own),
                ("PrivateDnsName", pvn),
                ("SubnetId", sub),
                ("Status", st),
                ("Ipv6Addresses", ip6),
                ("PrivateIpAddress", pvip)])
        = .error (.keyError "IpOwnerId"))
  ∧ (∀ (ipo pip mac nid own pvn sub st ip6 pvip : Val),
      from_raw_data_to_network_interface
        (.dict [("Association", .dict [("IpOwnerId", ipo), ("PublicIp", pip)]),
                ("MacAddress", mac),
                ("NetworkInterfaceId", nid),
                ("OwnerId", own),
                ("PrivateDnsName", pvn),
                ("SubnetId", sub),
                ("Status", st),
                ("Ipv6Addresses", ip6),
                ("PrivateIpAddress", pvip)])
        = .error (.keyError "PublicDnsName"))
  ∧ (∀ (ipo pdn mac nid own pvn sub st ip6 pvip : Val),
      from_raw_data_to_network_interface
        (.dict [("Association", .dict [("IpOwnerId", ipo), ("PublicDnsName", pdn)]),
                ("MacAddress", mac),
                ("NetworkInterfaceId", nid),
                ("OwnerId", own),
                ("PrivateDnsName", pvn),
                ("SubnetId", sub),
                ("Status", st),
                ("Ipv6Addresses", ip6),
                ("PrivateIpAddress", pvip)])
        = .error (.keyError "PublicIp"))
  ∧ (∀ (ipo pdn pip nid own pvn sub st ip6 pvip : Val),
      from_raw_data_to_network_interface
        (.dict [("Association", .dict [("IpOwnerId", ipo), ("PublicDnsName", pdn), ("PublicIp", pip)]),
                ("NetworkInterfaceId", nid),
                ("OwnerId", own),
                ("PrivateDnsName", pvn),
                ("SubnetId", sub),
                ("Status", st),
                ("Ipv6Addresses", ip6),
                ("PrivateIpAddress", pvip)])
        = .error (.keyError "MacAddress"))
  ∧ (∀ (ipo pdn pip mac own pvn sub st ip6 pvip : Val),
      from_raw_data_to_network_interface
        (.dict [("Association", .dict [("IpOwnerId", ipo), ("PublicDnsName", pdn), ("PublicIp", pip)]),
                ("MacAddress", mac),
                ("OwnerId", own),
                ("PrivateDnsName", pvn),
                ("SubnetId", sub),
                ("Status", st),
                ("Ipv6Addresses", ip6),
                ("PrivateIpAddress", pvip)])
        = .error (.keyError "NetworkInterfaceId"))
  ∧ (∀ (ipo pdn pip mac nid pvn sub st ip6 pvip : Val),
      from_raw_data_to_network_interface
        (.dict [("Association", .dict [("IpOwnerId", ipo), ("PublicDnsName", pdn), ("PublicIp", pip)]),
                ("MacAddress", mac),
                ("NetworkInterfaceId", nid),
                ("PrivateDnsName", pvn),
                ("SubnetId", sub),
                ("Status", st),
                ("Ipv6Addresses", ip6),
                ("PrivateIpAddress", pvip)])
        = .error (.keyError "OwnerId"))
  ∧ (∀ (ipo pdn pip mac nid own sub st ip6 pvip : Val),
      from_raw_data_to_network_interface
        (.dict [("Association", .dict [("IpOwnerId", ipo), ("PublicDnsName", pdn), ("PublicIp", pip)]),
                ("MacAddress", mac),
                ("NetworkInterfaceId", nid),
                ("OwnerId", own),
                ("SubnetId", sub),
                ("Status", st),
                ("Ipv6Addresses", ip6),
                ("PrivateIpAddress", pvip)])
        = .error (.keyError "PrivateDnsName"))
  ∧ (∀ (ipo pdn pip mac nid own pvn st ip6 pvip : Val),
      from_raw_data_to_network_interface
        (.dict [("Association", .dict [("IpOwnerId", ipo), ("PublicDnsName", pdn), ("PublicIp", pip)]),
                ("MacAddress", mac),
                ("NetworkInterfaceId", nid),
                ("OwnerId", own),
                ("PrivateDnsName", pvn),
                ("Status", st),
                ("Ipv6Addresses", ip6),
                ("PrivateIpAddress", pvip)])
        = .error (.keyError "SubnetId"))
  ∧ (∀ (ipo pdn pip mac nid own pvn sub ip6 pvip : Val),
      from_raw_data_to_network_interface
        (.dict [("Association", .dict [("IpOwnerId", ipo), ("PublicDnsName", pdn), ("PublicIp", pip)]),
                ("MacAddress", mac),
                ("NetworkInterfaceId", nid),
                ("OwnerId", own),
                ("PrivateDnsName", pvn),
                ("SubnetId", sub),
                ("Ipv6Addresses", ip6),
                ("PrivateIpAddress", pvip)])
        = .error (.keyError "Status"))
  ∧ (∀ (ipo pdn pip mac nid own pvn sub st pvip : Val),
      from_raw_data_to_network_interface
        (.dict [("Association", .dict [("IpOwnerId", ipo), ("PublicDnsName", pdn), ("PublicIp", pip)]),
                ("MacAddress", mac),
                ("NetworkInterfaceId", nid),
                ("OwnerId", own),
                ("PrivateDnsName", pvn),
                ("SubnetId", sub),
                ("Status", st),
                ("PrivateIpAddress", pvip)])
        = .error (.keyError "Ipv6Addresses"))
  ∧ (∀ (img iid stt lt tg cpu ity sg ct srn rdn : Val),
      from_raw_data_to_instance
        (.dict [("ImageId", img),
                ("InstanceId", iid),
                ("State", stt),
                ("LaunchTime", lt),
                ("Tags", tg),
                ("CpuOptions", cpu),
                ("InstanceType", ity),
                ("SecurityGroups", sg),
                ("ClientToken", ct),
                ("StateTransitionReason", srn),
                ("RootDeviceName", rdn)])
        = (.error (.keyError "NetworkInterfaces"), []))
  ∧ (∀ (iid stt lt tg cpu ity sg ct srn rdn : Val),
      from_raw_data_to_instance
        (.dict [("NetworkInterfaces", .list []),
                ("InstanceId", iid),
                ("State", stt),
                ("LaunchTime", lt),
                ("Tags", tg),
                ("CpuOptions", cpu),
                ("InstanceType", ity),
                ("SecurityGroups", sg),
                ("ClientToken", ct),
                ("StateTransitionReason", srn),
                ("RootDeviceName", rdn)])
        = (.error (.keyError "ImageId"), []))
  ∧ (∀ (img stt lt tg cpu ity sg ct srn rdn : Val),
      from_raw_data_to_instance
        (.dict [("NetworkInterfaces", .list []),
                ("ImageId", img),
                ("State", stt),
                ("LaunchTime", lt),
                ("Tags", tg),
                ("CpuOptions", cpu),
                ("InstanceType", ity),
                ("SecurityGroups", sg),
                ("ClientToken", ct),
                ("StateTransitionReason", srn),
                ("RootDeviceName", rdn)])
        = (.error (.keyError "InstanceId"), []))
  ∧ (∀ (img iid lt tg cpu ity sg ct srn rdn : Val),
      from_raw_data_to_instance
        (.dict [("NetworkInterfaces", .list []),
                ("ImageId", img),
                ("InstanceId", iid),
                ("LaunchTime", lt),
                ("Tags", tg),
                ("CpuOptions", cpu),
                ("InstanceType", ity),
                ("SecurityGroups", sg),
                ("ClientToken", ct),
                ("StateTransitionReason", srn),
                ("RootDeviceName", rdn)])
        = (.error (.keyError "State"), []))
  ∧ (∀ (img iid stt tg cpu ity sg ct srn rdn : Val),
      from_raw_data_to_instance
        (.dict [("NetworkInterfaces", .list []),
                ("ImageId", img),
                ("InstanceId", iid),
                ("State", stt),
                ("Tags", tg),
                ("CpuOptions", cpu),
                ("InstanceType", ity),
                ("SecurityGroups", sg),
                ("ClientToken", ct),
                ("StateTransitionReason", srn),
                ("RootDeviceName", rdn)])
        = (.error (.keyError "LaunchTime"), []))
  ∧ (∀ (img iid stt lt cpu ity sg ct srn rdn : Val),
      from_raw_data_to_instance
        (.dict [("NetworkInterfaces", .list []),
                ("ImageId", img),
                ("InstanceId", iid),
                ("State", stt),
                ("LaunchTime", lt),
                ("CpuOptions", cpu),
                ("InstanceType", ity),
                ("SecurityGroups", sg),
                ("ClientToken", ct),
                ("StateTransitionReason", srn),
                ("RootDeviceName", rdn)])
        = (.error (.keyError "Tags"), []))
  ∧ (∀ (img iid stt lt tg ity sg ct srn rdn : Val),
      from_raw_data_to_instance
        (.dict [("NetworkInterfaces", .list []),
                ("ImageId", img),
                ("InstanceId", iid),
                ("State", stt),
                ("LaunchTime", lt),
                ("Tags", tg),
                ("InstanceType", ity),
                ("SecurityGroups", sg),
                ("ClientToken", ct),
                ("StateTransitionReason", srn),
                ("RootDeviceName", rdn)])
        = (.error (.keyError "CpuOptions"), []))
  ∧ (∀ (img iid stt lt tg cpu sg ct srn rdn : Val),
      from_raw_data_to_instance
        (.dict [("NetworkInterfaces", .list []),
                ("ImageId", img),
                ("InstanceId", iid),
                ("State", stt),
                ("LaunchTime", lt),
                ("Tags", tg),
                ("CpuOptions", cpu),
                ("SecurityGroups", sg),
                ("ClientToken", ct),
                ("StateTransitionReason", srn),
                ("RootDeviceName", rdn)])
        = (.error (.keyError "InstanceType"), []))
  ∧ (∀ (img iid stt lt tg cpu ity ct srn rdn : Val),
      from_raw_data_to_instance
        (.dict [("NetworkInterfaces", .list []),
                ("ImageId", img),
                ("InstanceId", iid),
                ("State", stt),
                ("LaunchTime", lt),
                ("Tags", tg),
                ("CpuOptions", cpu),
                ("InstanceType", ity),
                ("ClientToken", ct),
                ("StateTransitionReason", srn),
                ("RootDeviceName", rdn)])
        = (.error (.keyError "SecurityGroups"), []))
  ∧ (∀ (img iid stt lt tg cpu ity sg srn rdn : Val),
      from_raw_data_to_instance
        (.dict [("NetworkInterfaces", .list []),
                ("ImageId", img),
                ("InstanceId", iid),
                ("State", stt),
                ("LaunchTime", lt),
                ("Tags", tg),
                ("CpuOptions", cpu),
                ("InstanceType", ity),
                ("SecurityGroups", sg),
                ("StateTransitionReason", srn),
                ("RootDeviceName", rdn)])
        = (.error (.keyError "ClientToken"), []))
  ∧ (∀ (img iid stt lt tg cpu ity sg ct rdn : Val),
      from_raw_data_to_instance
        (.dict [("NetworkInterfaces", .list []),
                ("ImageId", img),
                ("InstanceId", iid),
                ("State", stt),
                ("LaunchTime", lt),
                ("Tags", tg),
                ("CpuOptions", cpu),
                ("InstanceType", ity),
                ("SecurityGroups", sg),
                ("ClientToken", ct),
                ("RootDeviceName", rdn)])
        = (.error (.keyError "StateTransitionReason"), []))
  ∧ (∀ (img iid stt lt tg cpu ity sg ct srn : Val),
      from_raw_data_to_instance
        (.dict [("NetworkInterfaces", .list []),
                ("ImageId", img),
                ("InstanceId", iid),
                ("State", stt),
                ("LaunchTime", lt),
                ("Tags", tg),
                ("CpuOptions", cpu),
                ("InstanceType", ity),
                ("SecurityGroups", sg),
                ("ClientToken", ct),
                ("StateTransitionReason", srn)])
        = (.error (.keyError "RootDeviceName"), [])) := by
  refine ⟨?_, ?_, ?_, ?_, ?_, ?_, ?_, ?_, ?_, ?_, ?_, ?_, ?_, ?_, ?_, ?_, ?_, ?_, ?_, ?_, ?_, ?_, ?_, ?_⟩
  · intro ipo pdn pip mac nid own pvn sub st ip6 a hpip
    have base : from_raw_data_to_network_interface
        (.dict [("Association", .dict [("IpOwnerId", ipo), ("PublicDnsName", pdn), ("PublicIp", pip)]),
                ("MacAddress", mac),
                ("NetworkInterfaceId", nid),
                ("OwnerId", own),
                ("PrivateDnsName", pvn),
                ("SubnetId", sub),
                ("Status", st),
                ("Ipv6Addresses", ip6)])
        = (ip_address pip >>= fun _ =>
            (.error (.keyError "PrivateIpAddress")
              : Except PyErr (NetworkInterface × List LogEntry))) := rfl
    rw [base, hpip]
    rfl
  · intros; rfl
  · intros; rfl
  · intros; rfl
  · intros; rfl
  · intros; rfl
  · intros; rfl
  · intros; rfl
  · intros; rfl
  · intros; rfl
  · intros; rfl
  · intros; rfl
  · intros; rfl
  · intros; rfl
  · intros; rfl
  · intros; rfl
  · intros; rfl
  · intros; rfl
  · intros; rfl
  · intros; rfl
  · intros; rfl
  · intros; rfl
  · intros; rfl
  · intros; rfl

/-- Witness for C4: the `PrivateIpAddress` conjunct applied at a record
whose `PublicIp` parses. -/
theorem missing_required_key_raises_witness :
    from_raw_data_to_network_interface
      (.dict [("Association", .dict [("IpOwnerId", .str "o"), ("PublicDnsName", .str ""),
                                     ("PublicIp", .str "1.2.3.4")]),
              ("MacAddress", .str "00:00"), ("NetworkInterfaceId", .str "eni-1"),
              ("OwnerId", .str "o"), ("PrivateDnsName", .str ""), ("SubnetId", .str "s-1"),
              ("Status", .str "in-use"), ("Ipv6Addresses", .str "")])
      = .error (.keyError "PrivateIpAddress") :=
  missing_required_key_raises.1 (.str "o") (.str "") (.str "1.2.3.4") (.str "00:00")
    (.str "eni-1") (.str "o") (.str "") (.str "s-1") (.str "in-use") (.str "")
    (.v4 16909060) rfl

/-- C6: full output characterization of `from_raw_data_to_instance` on
records whose required lookups succeed: each of the four optional
fields (`ram_disk_id`, `platform`, `kernel_id`, `Host_id`) equals the
raw value of its key when present and the empty string when absent
(`Option.getD` over the lookup), and every other field equals the
corresponding required lookup — so the presence-based rule populates no
other field. -/
theorem instance_field_characterization :
    ∀ (raw nis : Val) (ifs : List Val) (parsed : List NetworkInterface)
      (nlog : List LogEntry) (img iid stt lt tg cpu ity sg ct srn rdn : Val),
    dictGet raw "NetworkInterfaces" = .ok nis →
    iterVal nis = .ok ifs →
    niLoop ifs = (.ok parsed, nlog) →
    dictGet raw "ImageId" = .ok img →
    dictGet raw "InstanceId" = .ok iid →
    dictGet raw "State" = .ok stt →
    dictGet raw "LaunchTime" = .ok lt →
    dictGet raw "Tags" = .ok tg →
    dictGet raw "CpuOptions" = .ok cpu →
    dictGet raw "InstanceType" = .ok ity →
    dictGet raw "SecurityGroups" = .ok sg →
    dictGet raw "ClientToken" = .ok ct →
    dictGet raw "StateTransitionReason" = .ok srn →
    dictGet raw "RootDeviceName" = .ok rdn →
    from_raw_data_to_instance raw =
      (.ok { image_id := img, instance_id := iid, network_interfaces := parsed,
             state := stt, launch_time := lt, tags := tg, cpu_details := cpu,
             instance_type := ity, security_groups := sg, client_token := ct,
             state_transition_reason := srn, root_device_name := rdn,
             ram_disk_id := (optLookup raw "RamdiskId").getD (.str ""),
             platform := (optLookup raw "PlatformDetails").getD (.str ""),
             kernel_id := (optLookup raw "KernelId").getD (.str ""),
             Host_id := (optLookup raw "HostId").getD (.str "") }, nlog) := by
  intro raw nis ifs parsed nlog img iid stt lt tg cpu ity sg ct srn rdn
    h1 h2 h3 h4 h5 h6 h7 h8 h9 h10 h11 h12 h13 h14
  simp only [from_raw_data_to_instance, h1, h2, h3, h4, h5, h6, h7, h8, h9, h10,
    h11, h12, h13, h14, applyOptionals_eq, Except.bind]
  rfl

/-- Witness for C6: the example record carrying all four optional keys
yields exactly those values; on the same record without them (see the
end-to-end example) the fields stay empty strings. -/
theorem instance_field_characterization_witness :
    from_raw_data_to_instance exampleRawOpt =
      (.ok { image_id := .str "ami-1", instance_id := .str "i-1",
             network_interfaces := [], state := .dict [("Name", .str "running")],
             launch_time := .obj 0, tags := .list [],
             cpu_details := .dict [("CoreCount", .obj 1), ("ThreadsPerCore", .obj 2)],
             instance_type := .str "t2.micro", security_groups := .list [],
             client_token := .str "", state_transition_reason := .str "",
             root_device_name := .str "/dev/sda1", ram_disk_id := .str "ari-1",
             platform := .str "Linux/UNIX", kernel_id := .str "aki-1",
             Host_id := .str "h-1" }, []) :=
  instance_field_characterization exampleRawOpt (.list []) [] [] []
    (.str "ami-1") (.str "i-1") (.dict [("Name", .str "running")]) (.obj 0)
    (.list []) (.dict [("CoreCount", .obj 1), ("ThreadsPerCore", .obj 2)])
    (.str "t2.micro") (.list []) (.str "") (.str "") (.str "/dev/sda1")
    rfl rfl rfl rfl rfl rfl rfl rfl rfl rfl rfl rfl rfl rfl

/-- C5: pagination: for any 3-page response sequence whose first two
pages carry a continuation token and whose third does not, the
collector issues exactly 3 calls — the first with no cursor, each
further one with the previous response's token — and accumulates the
records of all three pages in order. -/
theorem pagination_three_pages :
    ∀ (p1 p2 p3 : Page) (t1 t2 : String),
    p1.nextToken = some t1 → p2.nextToken = some t2 → p3.nextToken = none →
    describe_instances_paginated [.ok p1, .ok p2, .ok p3]
      = .ok (pageRecords p1 ++ pageRecords p2 ++ pageRecords p3,
             [none, some t1, some t2])
    ∧ ([none, some t1, some t2] : List (Option String)).length = 3 := by
  intro p1 p2 p3 t1 t2 h1 h2 h3
  obtain ⟨r1, n1⟩ := p1
  obtain ⟨r2, n2⟩ := p2
  obtain ⟨r3, n3⟩ := p3
  simp only at h1 h2 h3
  subst h1; subst h2; subst h3
  refine ⟨?_, rfl⟩
  have base : describe_instances_paginated
      [.ok ⟨r1, some t1⟩, .ok ⟨r2, some t2⟩, .ok (⟨r3, none⟩ : Page)]
      = .ok (pageRecords ⟨r1, some t1⟩ ++ (pageRecords ⟨r2, some t2⟩ ++
          (pageRecords (⟨r3, none⟩ : Page) ++ [])), [none, some t1, some t2]) := rfl
  rw [base]
  simp [List.append_assoc]

/-- Witness for C5: a concrete 3-page trace. -/
theorem pagination_three_pages_witness :
    describe_instances_paginated
      [.ok ⟨[⟨[.str "a"]⟩], some "t1"⟩, .ok ⟨[⟨[.str "b"]⟩], some "t2"⟩,
       .ok ⟨[⟨[.str "c"]⟩], none⟩]
      = .ok ([.str "a", .str "b", .str "c"], [none, some "t1", some "t2"]) :=
  (pagination_three_pages ⟨[⟨[.str "a"]⟩], some "t1"⟩ ⟨[⟨[.str "b"]⟩], some "t2"⟩
    ⟨[⟨[.str "c"]⟩], none⟩ "t1" "t2" rfl rfl rfl).1

/-- The region loop under an environment whose client acquisitions all
succeed: it never raises, collects exactly the records of the regions
whose listing succeeded, in input order, and appends one log line per
region — debug on success, error naming the region on failure. -/
theorem regionLoop_ok (env : Env) :
    ∀ (rs : List String) (acc : List Val) (log : List LogEntry),
    (∀ r ∈ rs, ∃ c, env.acquire r = .ok c) →
    regionLoop env rs acc log
      = (.ok (acc ++ goodRaws env rs), log ++ regionDiags env rs) := by
  intro rs
  induction rs with
  | nil => intro acc log _; simp [regionLoop, goodRaws, regionDiags]
  | cons r rest ih =>
    intro acc log hacq
    obtain ⟨c, hc⟩ := hacq r (by simp)
    have hrest : ∀ x ∈ rest, ∃ cl, env.acquire x = .ok cl :=
      fun x hx => hacq x (by simp [hx])
    simp only [regionLoop, hc]
    cases hdesc : describe_instances_paginated c with
    | ok p =>
      obtain ⟨recs, args⟩ := p
      dsimp only
      rw [ih _ _ hrest]
      simp [goodRaws, regionDiags, regionFetch, hc, hdesc, List.append_assoc]
    | error e =>
      dsimp only
      rw [ih _ _ hrest]
      simp [goodRaws, regionDiags, regionFetch, hc, hdesc, List.append_assoc]

/-- The error-severity entries of the per-region log are exactly one
line per failed region, naming it, in input order. -/
theorem regionDiags_error_entries (env : Env) :
    ∀ rs : List String,
    (regionDiags env rs).filter isErrorEntry
      = (rs.filter (fun r => fetchFails env r)).map
          (fun r => (LogLevel.error, "Could not pull instances from region " ++ r)) := by
  intro rs
  induction rs with
  | nil => rfl
  | cons r rest ih =>
    have step : regionDiags env (r :: rest)
        = (match regionFetch env r with
           | .ok _ => [(LogLevel.debug, "pulled instances from region " ++ r)]
           | .error _ =>
             [(LogLevel.error, "Could not pull instances from region " ++ r)])
          ++ regionDiags env rest := rfl
    rw [step]
    cases hf : regionFetch env r with
    | ok recs => simp [hf, fetchFails, isErrorEntry, ih, List.filter_cons]
    | error e => simp [hf, fetchFails, isErrorEntry, ih, List.filter_cons]

/-- C2 (amended): when every client acquisition succeeds, the collector
tolerates listing failures: it returns exactly the instances parsed
from the successful regions' records in input-region order, no
exception escapes for a failed listing, and the error-severity entries
of the per-region log name exactly the failed regions, one each.  (The
claim as frozen also covers client-acquisition failures; those escape —
see the counterexample. ) -/
theorem region_listing_failure_tolerated :
    (∀ (env : Env) (s : Option (List String)) (insts : List Instance)
       (plog : List LogEntry),
      (∀ r ∈ regionsToUse s, ∃ c, env.acquire r = .ok c) →
      parseLoop (goodRaws env (regionsToUse s)) = (.ok insts, plog) →
      get_all_aws_instances env s =
        (.ok insts,
         (LogLevel.info, "started pulling instances") ::
           (regionDiags env (regionsToUse s) ++
            (LogLevel.info, "finished successfully pulling instances") ::
              (LogLevel.info, "processing raw data into objects") ::
                (plog ++ [(LogLevel.info, "finished processing the raw data")]))))
  ∧ (∀ (env : Env) (rs : List String),
      (regionDiags env rs).filter isErrorEntry
        = (rs.filter (fun r => fetchFails env r)).map
            (fun r => (LogLevel.error, "Could not pull instances from region " ++ r))) := by
  constructor
  · intro env s insts plog hacq hparse
    unfold get_all_aws_instances
    dsimp only
    rw [regionLoop_ok env (regionsToUse s) [] _ hacq]
    dsimp only
    simp only [List.nil_append]
    rw [hparse]
    dsimp only
    simp [List.append_assoc]
  · exact regionDiags_error_entries

/-- C2 counterexample: the claim as frozen fails for client-acquisition
failures.  Region `A` succeeds, region `B`'s `boto3.client` call raises
(source line 49, before the `try`): the exception escapes and the run
returns no collection at all instead of `A`'s instances. -/
theorem region_acquire_failure_escapes :
    get_all_aws_instances envAcquireFails (some ["A", "B"])
      = (.error (.clientError "could not create client"),
         [(LogLevel.info, "started pulling instances"),
          (LogLevel.debug, "pulled instances from region A")]) := rfl

/-- Witness for C2: region `A` succeeds, region `B`'s listing raises;
the run returns exactly `A`'s parsed instance and one error line names
`B`. -/
theorem region_listing_failure_tolerated_witness :
    get_all_aws_instances envListingFails (some ["A", "B"])
      = (.ok [exampleInstance],
         [(LogLevel.info, "started pulling instances"),
          (LogLevel.debug, "pulled instances from region A"),
          (LogLevel.error, "Could not pull instances from region B"),
          (LogLevel.info, "finished successfully pulling instances"),
          (LogLevel.info, "processing raw data into objects"),
          (LogLevel.info, "finished processing the raw data")]) := by
  refine region_listing_failure_tolerated.1 envListingFails (some ["A", "B"])
    [exampleInstance] [] ?_ rfl
  intro r hr
  have hr2 : r = "A" ∨ r = "B" := by simpa [regionsToUse] using hr
  rcases hr2 with rfl | rfl
  · exact ⟨[.ok pageA], rfl⟩
  · exact ⟨[.error (.clientError "AccessDenied")], rfl⟩

/-- C7: normalization failures are not caught by the collector: when
collection succeeded and some accumulated record makes the normalizer
raise, that exception is the result of `get_all_aws_instances` — no
partial collection is returned; and (second conjunct) when every client
acquisition succeeds, per-region listing failures never make the
collection phase raise. -/
theorem normalization_error_propagates :
    (∀ (env : Env) (s : Option (List String)) (all_raw : List Val)
       (log plog : List LogEntry) (e : PyErr),
      regionLoop env (regionsToUse s) [] [(LogLevel.info, "started pulling instances")]
        = (.ok all_raw, log) →
      parseLoop all_raw = (.error e, plog) →
      (get_all_aws_instances env s).1 = .error e)
  ∧ (∀ (env : Env) (rs : List String) (acc : List Val) (log : List LogEntry),
      (∀ r ∈ rs, ∃ c, env.acquire r = .ok c) →
      (regionLoop env rs acc log).1 = .ok (acc ++ goodRaws env rs)) := by
  constructor
  · intro env s all_raw log plog e h1 h2
    unfold get_all_aws_instances
    dsimp only
    rw [h1]
    dsimp only
    rw [h2]
  · intro env rs acc log hacq
    rw [regionLoop_ok env rs acc log hacq]

/-- Witness for C7: a region whose record lacks `ImageId` makes the
whole run fail with the `KeyError` naming it. -/
theorem normalization_error_propagates_witness :
    (get_all_aws_instances envMalformedRecord (some ["A"])).1
      = .error (.keyError "ImageId") :=
  normalization_error_propagates.1 envMalformedRecord (some ["A"]) [rawMissingImageId]
    [(LogLevel.info, "started pulling instances"),
     (LogLevel.debug, "pulled instances from region A")]
    [] (.keyError "ImageId") rfl rfl

/-- Prefix lookups are unaffected by appending to a list. -/
theorem get?_append_left {α : Type} (l1 l2 : List α) :
    ∀ n, n < l1.length → (l1 ++ l2).get? n = l1.get? n := by
  induction l1 with
  | nil => intro n hn; exact absurd hn (by simp)
  | cons x xs ih =>
    intro n hn
    cases n with
    | zero => rfl
    | succ m => exact ih m (by simpa using hn)

/-- Lookups away from the written index are unaffected by `set`. -/
theorem get?_set_other {α : Type} (a : α) :
    ∀ (l : List α) (i j : Nat), j ≠ i → (l.set i a).get? j = l.get? j := by
  intro l
  induction l with
  | nil => intro i j _; rfl
  | cons x xs ih =>
    intro i j hne
    cases i with
    | zero =>
      cases j with
      | zero => exact absurd rfl hne
      | succ m => rfl
    | succ k =>
      cases j with
      | zero => rfl
      | succ m => exact ih k m (fun hh => hne (by rw [hh]))

/-- `HeapPres` is reflexive. -/
theorem heapPres_refl (h : Heap) : HeapPres h h :=
  ⟨le_refl _, fun _ _ => rfl⟩

/-- `HeapPres` composes. -/
theorem heapPres_trans {h0 h1 h2 : Heap}
    (p : HeapPres h0 h1) (q : HeapPres h1 h2) : HeapPres h0 h2 :=
  ⟨le_trans p.1 q.1, fun a ha => (q.2 a (lt_of_lt_of_le ha p.1)).trans (p.2 a ha)⟩

/-- Allocation preserves every existing object. -/
theorem heapPres_alloc (h : Heap) (o : HObj) : HeapPres h (h ++ [o]) :=
  ⟨by simp, fun a ha => get?_append_left h [o] a ha⟩

/-- Writing a field of an object allocated at or beyond the old heap's
end preserves every object of the old heap. -/
theorem heapPres_set {h0 h : Heap} (addr : Nat) (f : String) (v : HVal)
    (hp : HeapPres h0 h) (haddr : h0.length ≤ addr) :
    HeapPres h0 (hsetField h addr f v) := by
  unfold hsetField
  split
  · exact ⟨by simpa using hp.1,
      fun a ha => (get?_set_other _ h addr a (by omega)).trans (hp.2 a ha)⟩
  · exact ⟨by simpa using hp.1,
      fun a ha => (get?_set_other _ h addr a (by omega)).trans (hp.2 a ha)⟩
  · exact hp

/-- A guarded address-assignment block only ever writes to the fresh
object, hence preserves the old heap. -/
theorem heapPres_setIfValid {h0 h : Heap} (addr : Nat) (f : String) (v : HVal)
    (hp : HeapPres h0 h) (haddr : h0.length ≤ addr) :
    HeapPres h0 (hsetIfValid h addr f v) := by
  unfold hsetIfValid
  split
  · split
    · exact heapPres_set addr f _ hp haddr
    · exact hp
  · exact hp

/-- An optional-field block only ever writes to the fresh object. -/
theorem heapPres_setOpt {h0 h : Heap} (addr : Nat) (raw : HVal) (k f : String)
    (hp : HeapPres h0 h) (haddr : h0.length ≤ addr) :
    HeapPres h0 (hsetOpt h addr raw k f) := by
  unfold hsetOpt
  split
  · exact heapPres_set addr f _ hp haddr
  · exact hp

/-- The heap-level interface normalizer preserves every pre-existing
object, whether it returns or raises. -/
theorem hfromRawNI_pres (h : Heap) (raw : HVal) : HeapPres h (hfromRawNI h raw).2 := by
  unfold hfromRawNI
  cases hdictGet h raw "Association" with
  | error e => exact heapPres_refl h
  | ok association =>
  dsimp only
  cases hdictGet h association "IpOwnerId" with
  | error e => exact heapPres_refl h
  | ok ip_owner_id =>
  dsimp only
  cases hdictGet h association "PublicDnsName" with
  | error e => exact heapPres_refl h
  | ok public_dns_name =>
  dsimp only
  cases hdictGet h raw "MacAddress" with
  | error e => exact heapPres_refl h
  | ok mac_address =>
  dsimp only
  cases hdictGet h raw "NetworkInterfaceId" with
  | error e => exact heapPres_refl h
  | ok network_interface_id =>
  dsimp only
  cases hdictGet h raw "OwnerId" with
  | error e => exact heapPres_refl h
  | ok owner_id =>
  dsimp only
  cases hdictGet h raw "PrivateDnsName" with
  | error e => exact heapPres_refl h
  | ok private_dns_name =>
  dsimp only
  cases hdictGet h raw "SubnetId" with
  | error e => exact heapPres_refl h
  | ok subnet_id =>
  dsimp only
  cases hdictGet h raw "Status" with
  | error e => exact heapPres_refl h
  | ok status =>
  dsimp only [halloc]
  cases hdictGet (h ++ [_]) raw "Ipv6Addresses" with
  | error e => exact heapPres_alloc h _
  | ok ipv6_address =>
  dsimp only
  cases hdictGet (h ++ [_]) association "PublicIp" with
  | error e => exact heapPres_alloc h _
  | ok publicIpVal =>
  dsimp only
  cases hip_address (h ++ [_]) publicIpVal with
  | error e => exact heapPres_alloc h _
  | ok public_ip =>
  dsimp only
  cases hdictGet (h ++ [_]) raw "PrivateIpAddress" with
  | error e => exact heapPres_alloc h _
  | ok private_ip_address =>
  dsimp only
  exact heapPres_setIfValid _ _ _
    (heapPres_setIfValid _ _ _
      (heapPres_setIfValid _ _ _ (heapPres_alloc h _) (le_refl _))
      (le_refl _))
    (le_refl _)

/-- The heap-level interface loop preserves every pre-existing object. -/
theorem hniLoop_pres : ∀ (l : List HVal) (h : Heap), HeapPres h (hniLoop h l).2 := by
  intro l
  induction l with
  | nil => intro h; exact heapPres_refl h
  | cons v rest ih =>
    intro h
    unfold hniLoop
    rcases hres : hfromRawNI h v with ⟨res, h1⟩
    have hp1 : HeapPres h h1 := by
      have hh := hfromRawNI_pres h v
      rw [hres] at hh
      exact hh
    cases res with
    | error e => exact hp1
    | ok addr =>
      dsimp only
      rcases hloop : hniLoop h1 rest with ⟨res2, h2⟩
      have hp2 : HeapPres h1 h2 := by
        have hh := ih h1
        rw [hloop] at hh
        exact hh
      cases res2 with
      | error e => exact heapPres_trans hp1 hp2
      | ok addrs => exact heapPres_trans hp1 hp2

/-- The heap-level instance normalizer preserves every pre-existing
object, whether it returns or raises. -/
theorem hfromRawInstance_pres (h : Heap) (raw : HVal) :
    HeapPres h (hfromRawInstance h raw).2 := by
  unfold hfromRawInstance
  cases hdictGet h raw "NetworkInterfaces" with
  | error e => exact heapPres_refl h
  | ok nisVal =>
  dsimp only
  cases hiter h nisVal with
  | error e => exact heapPres_refl h
  | ok ifaceVals =>
  dsimp only
  rcases hloop : hniLoop h ifaceVals with ⟨res1, h1⟩
  have hp1 : HeapPres h h1 := by
    have hh := hniLoop_pres ifaceVals h
    rw [hloop] at hh
    exact hh
  cases res1 with
  | error e => exact hp1
  | ok addrs =>
  dsimp only [halloc]
  have hp2 : HeapPres h (h1 ++ [.hlist (addrs.map HVal.href)]) :=
    heapPres_trans hp1 (heapPres_alloc h1 _)
  cases hdictGet (h1 ++ [_]) raw "ImageId" with
  | error e => exact hp2
  | ok image_id =>
  dsimp only
  cases hdictGet (h1 ++ [_]) raw "InstanceId" with
  | error e => exact hp2
  | ok instance_id =>
  dsimp only
  cases hdictGet (h1 ++ [_]) raw "State" with
  | error e => exact hp2
  | ok state =>
  dsimp only
  cases hdictGet (h1 ++ [_]) raw "LaunchTime" with
  | error e => exact hp2
  | ok launch_time =>
  dsimp only
  cases hdictGet (h1 ++ [_]) raw "Tags" with
  | error e => exact hp2
  | ok tags =>
  dsimp only
  cases hdictGet (h1 ++ [_]) raw "CpuOptions" with
  | error e => exact hp2
  | ok cpu_details =>
  dsimp only
  cases hdictGet (h1 ++ [_]) raw "InstanceType" with
  | error e => exact hp2
  | ok instance_type =>
  dsimp only
  cases hdictGet (h1 ++ [_]) raw "SecurityGroups" with
  | error e => exact hp2
  | ok security_groups =>
  dsimp only
  cases hdictGet (h1 ++ [_]) raw "ClientToken" with
  | error e => exact hp2
  | ok client_token =>
  dsimp only
  cases hdictGet (h1 ++ [_]) raw "StateTransitionReason" with
  | error e => exact hp2
  | ok state_transition_reason =>
  dsimp only
  cases hdictGet (h1 ++ [_]) raw "RootDeviceName" with
  | error e => exact hp2
  | ok root_device_name =>
  dsimp only
  have hlen : h.length ≤ (h1 ++ [HObj.hlist (addrs.map HVal.href)]).length := hp2.1
  exact heapPres_setOpt _ _ _ _
    (heapPres_setOpt _ _ _ _
      (heapPres_setOpt _ _ _ _
        (heapPres_setOpt _ _ _ _
          (heapPres_trans hp2 (heapPres_alloc _ _)) hlen)
        hlen)
      hlen)
    hlen

/-- C10: neither normalizer modifies its raw input: in the heap-level
embedding, whose only writes are the attribute assignments to the
freshly allocated dataclass objects, every object present in the heap
before the call — the raw record, its nested interface records and
association blocks, and everything else — is unchanged in the heap
after the call, whether normalization returns or raises. -/
theorem raw_records_not_modified :
    ∀ (h : Heap) (raw : HVal) (a : Nat), a < h.length →
      ((hfromRawInstance h raw).2.get? a = h.get? a
        ∧ (hfromRawNI h raw).2.get? a = h.get? a) :=
  fun h raw a ha =>
    ⟨(hfromRawInstance_pres h raw).2 a ha, (hfromRawNI_pres h raw).2 a ha⟩

/-- Witness for C10: the interface record stored at address 1 of the
example heap (with its association dict at address 0) is unchanged by
both normalizers. -/
theorem raw_records_not_modified_witness :
    (hfromRawInstance hExample (.href 1)).2.get? 1 = hExample.get? 1
    ∧ (hfromRawNI hExample (.href 1)).2.get? 1 = hExample.get? 1 :=
  raw_records_not_modified hExample (.href 1) 1 (by decide)
